import Mathlib

/-!
Verification of the naudiodon stream-bridging layer (src/index.ts).

The TypeScript source wraps an external audio engine (the native addon,
`AudioIOAddon`) in Node readable/writable/duplex streams.  We shallowly embed
the bridging code: buffers are lists of bytes (`List Nat`), engine results are
the `AudioIOResult` record from the source, asynchronous control flow is made
explicit as traces of events, and the factory `AudioIOFactory` is a pure function
from an options record to the trace of engine calls plus its outcome.
-/

namespace Naudiodon

/-- A raw audio buffer: a list of bytes. -/
abbrev Buf := List Nat

/-- `AudioIOResult` from src/index.ts (lines 42-46): the record the engine's
`read` resolves with.  `err`, `finished` and `buf` are each optional; the
source inspects them in the order err, finished, buf. -/
structure AudioIOResult where
  err : Option String
  finished : Bool
  buf : Option Buf
deriving Repr, DecidableEq

/-- A result carrying a buffer (no error, not finished). -/
def bufResult (b : Buf) : AudioIOResult := ⟨none, false, some b⟩

/-- The result the engine resolves with when input is finished. -/
def finishedResult : AudioIOResult := ⟨none, true, none⟩

/-- A result carrying an error. -/
def errResult (e : String) : AudioIOResult := ⟨some e, false, none⟩

/-- Lifecycle bookkeeping for a readable stream, recorded externally: whether
`quit()` / `abort()` has been called on the stream.  The source classes
`AudioReadableStream` / `AudioDuplexStream` hold no such field — their only
instance state is the engine handle — so the operational definitions below
take this record as a parameter and, matching the source, never consult it. -/
structure RState where
  quitCalled : Bool
  abortCalled : Bool
deriving Repr, DecidableEq

/-- Initial lifecycle state: neither `quit()` nor `abort()` called. -/
def RState.initial : RState := ⟨false, false⟩

/-- What `doRead` does once the awaited engine read resolves (src/index.ts
lines 93-108): push the buffer, push `null` (end of stream), or destroy the
stream with the result's error. -/
inductive ReadAction where
  | push (b : Option Buf)
  | pushNull
  | destroy (e : Option String)
deriving Repr, DecidableEq

/-- The resolution half of `AudioReadableStream.doRead` (src/index.ts lines
95-104): check `result.err` first, then `result.finished`, otherwise push
`result.buf`.  The method consults no lifecycle state, so the `RState`
parameter is ignored, exactly as in the source. -/
def doRead (_st : RState) (result : AudioIOResult) : ReadAction :=
  if result.err.isSome then
    ReadAction.destroy result.err
  else if result.finished then
    ReadAction.pushNull
  else
    ReadAction.push result.buf

/-- Calls the stream makes on the engine (`AudioIOAddon`, src/index.ts lines
48-56). -/
inductive EngineCall where
  | read (size : Nat)
  | write (chunk : Buf)
  | start
  | quit (mode : String)
deriving Repr, DecidableEq

/-- `AudioReadableStream._read` (src/index.ts lines 70-72): every data request
from the stream machinery goes straight to `doRead`, which issues
`audioIOAddon.read(size)` unconditionally — there is no lifecycle check. -/
def readRequest (_st : RState) (size : Nat) : EngineCall :=
  EngineCall.read size

/-- `AudioReadableStream.quit` (src/index.ts lines 78-83): awaits the engine's
`quit('WAIT')` and then invokes the optional callback.  It records nothing on
the stream; the returned `RState` flag is external bookkeeping. -/
def quit (st : RState) : RState × EngineCall :=
  ({ st with quitCalled := true }, EngineCall.quit "WAIT")

/-- `AudioReadableStream.abort` (src/index.ts lines 85-91): fires the engine's
`quit('ABORT')` and chains the optional callback on that promise.  It records
nothing on the stream; the returned `RState` flag is external bookkeeping. -/
def abort (st : RState) : RState × EngineCall :=
  ({ st with abortCalled := true }, EngineCall.quit "ABORT")

/-- The steps of the `abort` method body (src/index.ts lines 85-91), in
order: call `quit('ABORT')` on the engine, await that promise, invoke the
user callback.  `awaitRead` (awaiting an outstanding engine read) is a
possible step that the body does not contain. -/
inductive AbortStep where
  | callEngineQuitAbort
  | awaitEngineQuit
  | invokeCallback
  | awaitRead
deriving Repr, DecidableEq

/-- The body of `abort` as the ordered list of its steps. -/
def abortBody : List AbortStep :=
  [AbortStep.callEngineQuitAbort, AbortStep.awaitEngineQuit, AbortStep.invokeCallback]

/-- The read loop of the readable side, driven by the Node `Readable`
contract: the machinery requests data (`_read`), `doRead` awaits one engine
read, and after a successful `push` the machinery requests again; after
`push(null)` or `destroy` no further `_read` occurs.  The argument list is
the engine environment: the result each successive engine read resolves
with.  Returns the actions delivered to the consumer and the number of
engine reads issued. -/
def runReads (st : RState) : List AudioIOResult → List ReadAction × Nat
  | [] => ([], 0)
  | r :: rs =>
    match doRead st r with
    | ReadAction.push b =>
      (ReadAction.push b :: (runReads st rs).1, (runReads st rs).2 + 1)
    | ReadAction.pushNull => ([ReadAction.pushNull], 1)
    | ReadAction.destroy e => ([ReadAction.destroy e], 1)

/-! ### Writable side -/

/-- Observable events of the writable side: an engine `write(chunk)` being
issued, and the stream invoking the chunk's completion callback with the
engine's outcome (`null` on success, the error otherwise). -/
inductive WriteEvent where
  | engineWrite (chunk : Buf)
  | callback (outcome : Option String)
deriving Repr, DecidableEq

/-- The resolution half of `AudioWritableStream.doWrite` (src/index.ts lines
146-153): await the engine write's outcome and pass it to the completion
callback.  The method does nothing else — in particular it neither destroys
the stream nor records any error state. -/
def doWrite (chunk : Buf) (outcome : Option String) : List WriteEvent :=
  [WriteEvent.engineWrite chunk, WriteEvent.callback outcome]

/-- The write loop of the writable side, driven by the Node `Writable`
contract as the spec describes it: `_write` hands one chunk to `doWrite`,
and the machinery submits the next chunk only once that chunk's completion
callback has run.

Modelled from the spec: the scheduling of `_write` calls lives in the stream
framework and, for error outcomes, depends on the engine's `closeOnError`
policy implemented in the native addon, neither of which is under src/; per
§4.2 and §8 of the spec the framework submits the next chunk after each
completion callback, including after an error callback when
`closeOnError=false`.  The second argument is the engine environment: the
outcome each successive engine write resolves with.  If the engine never
resolves a write, no callback runs and no further chunk is submitted. -/
def runWrites : List Buf → List (Option String) → List WriteEvent
  | [], _ => []
  | c :: cs, o :: os => doWrite c o ++ runWrites cs os
  | c :: _, [] => [WriteEvent.engineWrite c]

/-! ### Factory and constructors -/

/-- `AudioOptions` from src/index.ts (lines 31-40): every field optional.
Numeric fields are integers; `sampleFormat` is kept as a plain integer since
the source constrains it only at the type level. -/
structure AudioOptions where
  deviceId : Option Int := none
  sampleRate : Option Int := none
  channelCount : Option Int := none
  sampleFormat : Option Int := none
  maxQueue : Option Int := none
  framesPerBuffer : Option Int := none
  highwaterMark : Option Int := none
  closeOnError : Option Bool := none
deriving Repr, DecidableEq

/-- The effective `highWaterMark` passed to the underlying stream
constructor: the source writes `options.highwaterMark || 16384`
(src/index.ts lines 64, 116, 164-165), so an absent value or the falsy
number `0` falls back to `16384`. -/
def effectiveHighWaterMark (hwm : Option Int) : Int :=
  match hwm with
  | none => 16384
  | some v => if v = 0 then 16384 else v

/-- Stream-constructor options computed by `AudioReadableStream`'s
constructor (src/index.ts lines 62-68). -/
structure ReadableCtorOptions where
  highWaterMark : Int
  objectMode : Bool
deriving Repr, DecidableEq

/-- `AudioReadableStream` constructor (src/index.ts lines 62-68). -/
def readableCtorOptions (options : AudioOptions) : ReadableCtorOptions :=
  { highWaterMark := effectiveHighWaterMark options.highwaterMark
    objectMode := false }

/-- Stream-constructor options computed by `AudioWritableStream`'s
constructor (src/index.ts lines 114-121). -/
structure WritableCtorOptions where
  highWaterMark : Int
  decodeStrings : Bool
  objectMode : Bool
deriving Repr, DecidableEq

/-- `AudioWritableStream` constructor (src/index.ts lines 114-121). -/
def writableCtorOptions (options : AudioOptions) : WritableCtorOptions :=
  { highWaterMark := effectiveHighWaterMark options.highwaterMark
    decodeStrings := false
    objectMode := false }

/-- Stream-constructor options computed by `AudioDuplexStream`'s constructor
(src/index.ts lines 159-168). -/
structure DuplexCtorOptions where
  allowHalfOpen : Bool
  readableObjectMode : Bool
  writableObjectMode : Bool
  readableHighWaterMark : Int
  writableHighWaterMark : Int
deriving Repr, DecidableEq

/-- `AudioDuplexStream` constructor (src/index.ts lines 159-168). -/
def duplexCtorOptions (inOptions outOptions : AudioOptions) : DuplexCtorOptions :=
  { allowHalfOpen := false
    readableObjectMode := false
    writableObjectMode := false
    readableHighWaterMark := effectiveHighWaterMark inOptions.highwaterMark
    writableHighWaterMark := effectiveHighWaterMark outOptions.highwaterMark }

/-- The options record passed to `AudioIOFactory` (src/index.ts lines 232-235):
`none` models an absent or `undefined` field, matching the source's
`'inOptions' in options && options.inOptions !== undefined` test. -/
structure AudioIOOptions where
  inOptions : Option AudioOptions
  outOptions : Option AudioOptions
deriving Repr, DecidableEq

/-- The stream variant `AudioIOFactory` constructs and returns. -/
inductive StreamVariant where
  | readable
  | writable
  | duplex
deriving Repr, DecidableEq

/-- Top-level events of the `AudioIOFactory` factory body observable by the engine:
the single `portAudioBindings.create(options)` call. -/
inductive FactoryEvent where
  | engineCreate
deriving Repr, DecidableEq

/-- `AudioIOFactory` (src/index.ts lines 232-284) as a pure function: the trace of
engine-facing factory events in execution order, paired with the outcome —
the selected stream variant, or the synchronously thrown error.  The source
calls `portAudioBindings.create(options)` on line 236, before it examines
which of `inOptions` / `outOptions` are present. -/
def AudioIOFactory (options : AudioIOOptions) :
    List FactoryEvent × Except String StreamVariant :=
  let events := [FactoryEvent.engineCreate]
  let readable := options.inOptions.isSome
  let writable := options.outOptions.isSome
  if readable && writable then
    (events, Except.ok StreamVariant.duplex)
  else if readable then
    (events, Except.ok StreamVariant.readable)
  else if writable then
    (events, Except.ok StreamVariant.writable)
  else
    (events, Except.error "AudioIOFactory requires either inOptions, outOptions, or both")

/-! ### Factory event wiring -/

/-- Events occurring inside the factory-installed `close` / `finish`
handlers (src/index.ts lines 244-255 and 266-280). -/
inductive WiringEvent where
  | engineQuit (mode : String)
  | engineQuitResolved
  | emitFinished
  | emitClosed
deriving Repr, DecidableEq

/-- `stream.quit()` as awaited by the finish handlers: call the engine's
`quit('WAIT')` and await its resolution (src/index.ts lines 78-83 /
131-136 / 182-187). -/
def streamQuitEvents : List WiringEvent :=
  [WiringEvent.engineQuit "WAIT", WiringEvent.engineQuitResolved]

/-- The factory's `finish` handler for writable and duplex streams
(src/index.ts lines 248-251 and 273-276): `await stream.quit()` then
`stream.emit('finished')`. -/
def onFinishEvents : List WiringEvent :=
  streamQuitEvents ++ [WiringEvent.emitFinished]

/-- The factory's `close` handler, attached to every variant (src/index.ts
lines 244-246, 259-261, 269-271): `stream.emit('closed')`. -/
def onCloseEvents : List WiringEvent :=
  [WiringEvent.emitClosed]

/-- Which lifecycle handlers the factory wires onto the variant it returns:
`close` and `error` on every variant, `finish` only on writable and duplex
streams (the readable branch, src/index.ts lines 256-265, attaches no
finish handler). -/
def wiredFinishHandler : StreamVariant → Option (List WiringEvent)
  | StreamVariant.readable => none
  | StreamVariant.writable => some onFinishEvents
  | StreamVariant.duplex => some onFinishEvents

/-- The chunks of the engine `write` calls occurring in a write-event trace,
in order. -/
def writesOf (es : List WriteEvent) : List Buf :=
  es.filterMap fun e =>
    match e with
    | WriteEvent.engineWrite c => some c
    | WriteEvent.callback _ => none

/-! ## Theorems -/

/-- C1: for every sequence of engine read results consisting of buffers and
ending in a finished result, the readable stream delivers exactly those
buffers, in order, once each, then signals end-of-stream exactly once
(`push(null)`), and issues exactly one engine read per result — in
particular no further read after the finished result. -/
theorem readable_emits_buffers_then_eos (st : RState) (bufs : List Buf) :
    runReads st (bufs.map bufResult ++ [finishedResult]) =
      (bufs.map (fun b => ReadAction.push (some b)) ++ [ReadAction.pushNull],
        bufs.length + 1) := by
  induction bufs with
  | nil => simp [runReads, doRead, finishedResult]
  | cons b bs ih => simp [runReads, doRead, bufResult, ih]

/-- C7: for every engine read result carrying an error, the readable stream
is destroyed with exactly that error, no buffer is delivered for that
request, and no retry read is issued (results queued after the error are
never requested). -/
theorem read_error_is_terminal (st : RState) (bufs : List Buf) (e : String)
    (rest : List AudioIOResult) :
    runReads st (bufs.map bufResult ++ errResult e :: rest) =
      (bufs.map (fun b => ReadAction.push (some b)) ++ [ReadAction.destroy (some e)],
        bufs.length + 1) := by
  induction bufs with
  | nil => simp [runReads, doRead, errResult]
  | cons b bs ih => simp [runReads, doRead, bufResult, ih]

/-- C2: for every sequence of chunks submitted to the writable stream with
an engine outcome for each, the trace strictly alternates engine write and
completion callback — each chunk's engine write is issued in submission
order, at most one write is outstanding at any time, and the callback that
lets the next chunk be submitted runs only after the previous engine write
resolved.  In particular the engine writes, projected out, are exactly the
submitted chunks in order. -/
theorem writable_serializes_writes (chunks : List Buf) (outs : List (Option String))
    (h : chunks.length = outs.length) :
    runWrites chunks outs =
        (chunks.zip outs).flatMap
          (fun p => [WriteEvent.engineWrite p.1, WriteEvent.callback p.2]) ∧
      writesOf (runWrites chunks outs) = chunks := by
  induction chunks generalizing outs with
  | nil => simp [runWrites, writesOf]
  | cons c cs ih =>
    cases outs with
    | nil => exact absurd h (by simp)
    | cons o os =>
      have h' : cs.length = os.length := by simpa using h
      obtain ⟨ih1, ih2⟩ := ih os h'
      constructor
      · simp [runWrites, doWrite, ih1]
      · simp [runWrites, doWrite, writesOf] at ih2 ⊢
        exact ih2

/-- Witness for C2 at two concrete chunks with successful outcomes. -/
theorem writable_serializes_writes_witness :
    runWrites [[1], [2]] [none, none] =
        (([[1], [2]] : List Buf).zip [none, none]).flatMap
          (fun p => [WriteEvent.engineWrite p.1, WriteEvent.callback p.2]) ∧
      writesOf (runWrites [[1], [2]] [none, none]) = [[1], [2]] :=
  writable_serializes_writes [[1], [2]] [none, none] rfl

/-- C6: with the spec's `closeOnError=false` engine behaviour — the engine
reports an error outcome for the second write only and keeps accepting —
the writable stream reports that single error through that write's
completion callback and does not terminate: the third chunk is still
submitted to the engine and completes normally. -/
theorem write_error_not_terminal (c1 c2 c3 : Buf) (e : String) :
    runWrites [c1, c2, c3] [none, some e, none] =
      [WriteEvent.engineWrite c1, WriteEvent.callback none,
        WriteEvent.engineWrite c2, WriteEvent.callback (some e),
        WriteEvent.engineWrite c3, WriteEvent.callback none] := rfl

/-- C8: `AudioIOFactory` returns exactly one stream variant determined by which
configurations are present: duplex when both `inOptions` and `outOptions`
are present, readable when only `inOptions` is, writable when only
`outOptions` is, and it throws when neither is present. -/
theorem audioIO_variant_selection (o : AudioIOOptions) :
    (AudioIOFactory o).2 =
      match o.inOptions, o.outOptions with
      | some _, some _ => Except.ok StreamVariant.duplex
      | some _, none => Except.ok StreamVariant.readable
      | none, some _ => Except.ok StreamVariant.writable
      | none, none =>
        Except.error "AudioIOFactory requires either inOptions, outOptions, or both" := by
  obtain ⟨i, w⟩ := o
  cases i <;> cases w <;> rfl

/-- C5 counterexample: calling `AudioIOFactory` with neither configuration does
throw synchronously, but the factory's event trace already contains the
engine `create` call — the failure does not occur before the engine is
constructed, refuting the claim at the concrete input `{}`. -/
theorem engine_created_before_config_check :
    (AudioIOFactory ⟨none, none⟩).1 = [FactoryEvent.engineCreate] ∧
      (AudioIOFactory ⟨none, none⟩).2 =
        Except.error "AudioIOFactory requires either inOptions, outOptions, or both" :=
  ⟨rfl, rfl⟩

/-- C5 amended: constructing a stream with neither input nor output
configuration fails synchronously with an `Error`, but only after the
engine has been constructed: `portAudioBindings.create(options)` is invoked
first, before the presence check that throws. -/
theorem no_config_throws_after_engine_create :
    AudioIOFactory ⟨none, none⟩ =
      ([FactoryEvent.engineCreate],
        Except.error "AudioIOFactory requires either inOptions, outOptions, or both") := rfl

/-- C3 counterexample: with `abort()` already called (engine `quit('ABORT')`
issued), a late-resolving engine read carrying a buffer is still delivered:
`doRead` pushes the buffer to the consumer, refuting "the buffer is never
delivered" at the concrete buffer `[1, 2]`. -/
theorem late_read_after_abort_delivered :
    doRead (abort RState.initial).1 (bufResult [1, 2]) =
      ReadAction.push (some [1, 2]) := rfl

/-- C3 amended: `abort()` fires the engine's `quit('ABORT')` and chains its
completion callback on that promise alone — its body never awaits the
outstanding read — but the stream does not discard a late-arriving result:
whatever the lifecycle state, when the outstanding read resolves with a
buffer, `doRead` delivers that buffer to the consumer. -/
theorem abort_does_not_discard_late_read :
    (∀ st, (abort st).2 = EngineCall.quit "ABORT") ∧
      AbortStep.awaitRead ∉ abortBody ∧
      (∀ st b, doRead st (bufResult b) = ReadAction.push (some b)) :=
  ⟨fun _ => rfl, by decide, fun _ _ => rfl⟩

/-- C4 counterexample: after `quit()` has been called on a fresh stream, a
data request from the stream machinery still issues an engine read —
refuting "no further read or write request is ever issued to the engine"
at the concrete request size 4096. -/
theorem post_quit_read_still_issued :
    readRequest (quit RState.initial).1 4096 = EngineCall.read 4096 := rfl

/-- C4 amended: the stream classes keep no lifecycle state: `quit()` /
`abort()` only invoke the engine's own `quit`, and a subsequent data request
or chunk submission still issues an engine read / write unconditionally;
suppressing post-shutdown operations is left entirely to the engine. -/
theorem post_shutdown_requests_not_suppressed :
    (∀ st size, readRequest (quit st).1 size = EngineCall.read size) ∧
      (∀ st size, readRequest (abort st).1 size = EngineCall.read size) ∧
      (∀ chunk o, WriteEvent.engineWrite chunk ∈ doWrite chunk o) :=
  ⟨fun _ _ => rfl, fun _ _ => rfl, fun chunk o => by simp [doWrite]⟩

/-- C9: every writable or duplex stream built by the factory has its
`finish` event wired to a handler that calls the stream's `quit()`
(engine `quit('WAIT')`), awaits its resolution, and only then emits the
`finished` notification; the `close` event is wired to emit the `closed`
notification. -/
theorem factory_finish_emits_after_quit (o : AudioIOOptions) (v : StreamVariant)
    (h : (AudioIOFactory o).2 = Except.ok v) (hout : o.outOptions.isSome) :
    wiredFinishHandler v =
        some [WiringEvent.engineQuit "WAIT", WiringEvent.engineQuitResolved,
          WiringEvent.emitFinished] ∧
      onCloseEvents = [WiringEvent.emitClosed] := by
  obtain ⟨i, w⟩ := o
  cases w with
  | none => simp at hout
  | some _ =>
    cases i with
    | none =>
      have hv : v = StreamVariant.writable := by
        simpa [AudioIOFactory] using h.symm
      subst hv
      exact ⟨rfl, rfl⟩
    | some _ =>
      have hv : v = StreamVariant.duplex := by
        simpa [AudioIOFactory] using h.symm
      subst hv
      exact ⟨rfl, rfl⟩

/-- Witness for C9: the writable variant built from an output-only
configuration. -/
theorem factory_finish_emits_after_quit_witness :
    wiredFinishHandler StreamVariant.writable =
        some [WiringEvent.engineQuit "WAIT", WiringEvent.engineQuitResolved,
          WiringEvent.emitFinished] ∧
      onCloseEvents = [WiringEvent.emitClosed] :=
  factory_finish_emits_after_quit ⟨none, some {}⟩ StreamVariant.writable rfl rfl

/-- The effective highWaterMark is never 0: `0 || 16384` falls back. -/
theorem effectiveHighWaterMark_ne_zero (hwm : Option Int) :
    effectiveHighWaterMark hwm ≠ 0 := by
  cases hwm with
  | none => simp [effectiveHighWaterMark]
  | some v =>
    by_cases hv : v = 0 <;> simp [effectiveHighWaterMark, hv]

/-- C10: every stream variant passes `options.highwaterMark || 16384` to the
underlying stream constructor: an absent `highwaterMark` and the falsy
value `0` both yield 16384, and consequently no configuration can produce a
highWaterMark of 0 through this interface. -/
theorem highWaterMark_defaults (oi oo : AudioOptions)
    (hi : oi.highwaterMark = none ∨ oi.highwaterMark = some 0) :
    (readableCtorOptions oi).highWaterMark = 16384 ∧
      (writableCtorOptions oi).highWaterMark = 16384 ∧
      (duplexCtorOptions oi oo).readableHighWaterMark = 16384 ∧
      (duplexCtorOptions oo oi).writableHighWaterMark = 16384 ∧
      (∀ o : AudioOptions, (readableCtorOptions o).highWaterMark ≠ 0) ∧
      (∀ o : AudioOptions, (writableCtorOptions o).highWaterMark ≠ 0) ∧
      (∀ a b : AudioOptions,
        (duplexCtorOptions a b).readableHighWaterMark ≠ 0 ∧
          (duplexCtorOptions a b).writableHighWaterMark ≠ 0) := by
  have hdef : effectiveHighWaterMark oi.highwaterMark = 16384 := by
    rcases hi with hi | hi <;> simp [effectiveHighWaterMark, hi]
  refine ⟨hdef, hdef, hdef, hdef, ?_, ?_, ?_⟩
  · exact fun o => effectiveHighWaterMark_ne_zero o.highwaterMark
  · exact fun o => effectiveHighWaterMark_ne_zero o.highwaterMark
  · exact fun a b => ⟨effectiveHighWaterMark_ne_zero a.highwaterMark,
      effectiveHighWaterMark_ne_zero b.highwaterMark⟩

/-- Witness for C10 at the empty configuration (highwaterMark absent). -/
theorem highWaterMark_defaults_witness :
    (readableCtorOptions {}).highWaterMark = 16384 ∧
      (writableCtorOptions {}).highWaterMark = 16384 ∧
      (duplexCtorOptions {} {}).readableHighWaterMark = 16384 ∧
      (duplexCtorOptions {} {}).writableHighWaterMark = 16384 ∧
      (∀ o : AudioOptions, (readableCtorOptions o).highWaterMark ≠ 0) ∧
      (∀ o : AudioOptions, (writableCtorOptions o).highWaterMark ≠ 0) ∧
      (∀ a b : AudioOptions,
        (duplexCtorOptions a b).readableHighWaterMark ≠ 0 ∧
          (duplexCtorOptions a b).writableHighWaterMark ≠ 0) :=
  highWaterMark_defaults {} {} (Or.inl rfl)

end Naudiodon
